import Mathlib

/-!
Verification of the media-relay core of the waterfall SFU: the Peer
callback handlers of pkg/peer/webrtc.go, the event variants of the peer
message file, and the Subscriber bookkeeping (Subscribe / Unsubscribe).

The media engine (pion/webrtc) is external to the repository: its
operations are modelled by their observable results, injected as
parameters (whether track creation succeeds, the outcome of each read and
write of the forwarding loop, the sender returned by AddTrack, the
connection state), and the engine calls a function performs are returned
as an explicit trace.
-/

namespace Waterfall

/-- Codec capability part of a track's identity triple. -/
structure RTPCodecCapability where
  mimeType : String
  clockRate : Nat
deriving DecidableEq, Repr

/-- The identity triple of a track: codec capability, track ID, stream ID.
Both remote tracks and local static RTP tracks are identified this way. -/
structure TrackInfo where
  codec : RTPCodecCapability
  trackID : String
  streamID : String
deriving DecidableEq, Repr

/-- An SDP session description (offer), opaque to the core. -/
structure SessionDescription where
  sdp : String
deriving DecidableEq, Repr

/-- Hangup reasons; the code only ever sends event.CallHangupUserHangup. -/
inductive CallHangupReason
  | userHangup
deriving DecidableEq, Repr

/-- The closed set of event variants the Peer pushes to its sink. -/
inductive Event
  | joinedTheCall
  | leftTheCall (reason : CallHangupReason)
  | newTrackPublished (track : TrackInfo)
  | publishedTrackFailed (track : TrackInfo)
  | newICECandidate (candidate : String)
  | iceGatheringComplete
  | renegotiationRequired (offer : SessionDescription)
  | dataChannelMessage (message : String)
  | dataChannelAvailable
deriving DecidableEq, Repr

/-- Recognizer for the NewTrackPublished variant. -/
def Event.isNewTrackPublished : Event → Bool
  | Event.newTrackPublished _ => true
  | _ => false

/-- Recognizer for the PublishedTrackFailed variant. -/
def Event.isPublishedTrackFailed : Event → Bool
  | Event.publishedTrackFailed _ => true
  | _ => false

/-- Engine model of webrtc.NewTrackLocalStaticRTP: when it succeeds it
returns a track carrying exactly the capability, track ID and stream ID it
was given; `ok` injects whether the engine call succeeds. -/
def newTrackLocalStaticRTP (ok : Bool) (codec : RTPCodecCapability)
    (id streamID : String) : Option TrackInfo :=
  if ok then some { codec := codec, trackID := id, streamID := streamID } else none

/-- Result of one remoteTrack.Read call in the forwarding loop. -/
inductive ReadResult
  | ok (n : Nat)
  | eof
  | readErr
deriving DecidableEq, Repr

/-- Result of one localTrack.Write call in the forwarding loop: ErrClosedPipe
is the "no active consumer" failure that the loop ignores. -/
inductive WriteResult
  | ok
  | errClosedPipe
  | writeErr
deriving DecidableEq, Repr

/-- One iteration's injected engine outcomes (the write outcome is consulted
only when the read succeeded). -/
structure LoopStep where
  read : ReadResult
  write : WriteResult
deriving DecidableEq, Repr

/-- A step the forwarding loop survives: a successful read followed by a
write that either succeeds or fails with ErrClosedPipe. -/
def LoopStep.benign (s : LoopStep) : Bool :=
  match s.read, s.write with
  | ReadResult.ok _, WriteResult.ok => true
  | ReadResult.ok _, WriteResult.errClosedPipe => true
  | _, _ => false

/-- The forwarding goroutine of Peer.onRtpTrackReceived, run against a finite
trace of injected read/write outcomes. Returns the events sent to the sink
and whether the loop returned within the trace (false = still looping when
the trace ran out). Mirrors the code: a read failure (io.EOF included; EOF
and other read errors differ only in logging) sends PublishedTrackFailed
and returns; a write failure other than io.ErrClosedPipe sends
PublishedTrackFailed and returns; otherwise the loop continues. -/
def forwardLoop (localTrack : TrackInfo) : List LoopStep → List Event × Bool
  | [] => ([], false)
  | step :: rest =>
    match step.read with
    | ReadResult.eof => ([Event.publishedTrackFailed localTrack], true)
    | ReadResult.readErr => ([Event.publishedTrackFailed localTrack], true)
    | ReadResult.ok _ =>
      match step.write with
      | WriteResult.writeErr => ([Event.publishedTrackFailed localTrack], true)
      | WriteResult.ok => forwardLoop localTrack rest
      | WriteResult.errClosedPipe => forwardLoop localTrack rest

/-- Peer.onRtpTrackReceived: create the local relay track from the remote
track's identity triple (abandon on failure), send NewTrackPublished, then
run the forwarding loop. Returns all events sent, in order, and whether
the forwarding loop terminated within the injected trace. -/
def onRtpTrackReceived (createOk : Bool) (remoteTrack : TrackInfo)
    (steps : List LoopStep) : List Event × Bool :=
  match newTrackLocalStaticRTP createOk remoteTrack.codec remoteTrack.trackID
      remoteTrack.streamID with
  | none => ([], false)
  | some localTrack =>
    (Event.newTrackPublished localTrack :: (forwardLoop localTrack steps).1,
     (forwardLoop localTrack steps).2)

/-- Peer.onNegotiationNeeded: CreateOffer (abandon on failure), then
SetLocalDescription (abandon on failure), then send RenegotiationRequired
with the offer. Both engine outcomes are injected. -/
def onNegotiationNeeded (createOfferResult : Option SessionDescription)
    (setLocalDescriptionOk : SessionDescription → Bool) : List Event :=
  match createOfferResult with
  | none => []
  | some offer =>
    if setLocalDescriptionOk offer then [Event.renegotiationRequired offer]
    else []

/-- webrtc.PeerConnectionState. -/
inductive PeerConnectionState
  | unknown
  | new
  | connecting
  | connected
  | disconnected
  | failed
  | closed
deriving DecidableEq, Repr

/-- Peer.onConnectionStateChanged: Failed, Disconnected and Closed all send
LeftTheCall with the one fixed reason event.CallHangupUserHangup;
Connected sends JoinedTheCall; every other state is only logged. -/
def onConnectionStateChanged (state : PeerConnectionState) : List Event :=
  match state with
  | PeerConnectionState.failed => [Event.leftTheCall CallHangupReason.userHangup]
  | PeerConnectionState.disconnected => [Event.leftTheCall CallHangupReason.userHangup]
  | PeerConnectionState.closed => [Event.leftTheCall CallHangupReason.userHangup]
  | PeerConnectionState.connected => [Event.joinedTheCall]
  | _ => []

/-- A data channel, identified by its label. -/
structure DataChannel where
  label : String
deriving DecidableEq, Repr

/-- Observable actions of Peer.onDataChannelReady: closing a channel, and
registering each of the four handlers on a channel. -/
inductive DCAction
  | closeChannel (dc : DataChannel)
  | registerOnOpen (dc : DataChannel)
  | registerOnMessage (dc : DataChannel)
  | registerOnError (dc : DataChannel)
  | registerOnClose (dc : DataChannel)
deriving DecidableEq, Repr

/-- Peer.onDataChannelReady: if a data channel is already bound, log, close
the new channel and change nothing; otherwise bind the channel and
register its OnOpen, OnMessage, OnError and OnClose handlers. Returns the
new bound-channel state and the actions performed. -/
def onDataChannelReady (current : Option DataChannel) (dc : DataChannel) :
    Option DataChannel × List DCAction :=
  match current with
  | some existing => (some existing, [DCAction.closeChannel dc])
  | none =>
    (some dc,
     [DCAction.registerOnOpen dc, DCAction.registerOnMessage dc,
      DCAction.registerOnError dc, DCAction.registerOnClose dc])

/-- A whole sequence of "data channel ready" notifications delivered to one
Peer, folding onDataChannelReady over the list. -/
def processDataChannels (current : Option DataChannel) :
    List DataChannel → Option DataChannel × List DCAction
  | [] => (current, [])
  | dc :: rest =>
    ((processDataChannels (onDataChannelReady current dc).1 rest).1,
     (onDataChannelReady current dc).2 ++
       (processDataChannels (onDataChannelReady current dc).1 rest).2)

/-- Identifier of a subscriber. -/
abbrev SubscriberId := Nat

/-- Identifier of a publisher. -/
abbrev PubId := Nat

/-- An RTPSender handle, opaque to the core. -/
abbrev Sender := Nat

/-- The Subscriber's lock-guarded mutable triple. A Go nil pointer is
modelled as none. -/
structure SubscriberCore where
  track : Option TrackInfo
  sender : Option Sender
  publisher : Option PubId
deriving DecidableEq, Repr

/-- NewSubscriber: only the call and logger fields are set; Track, sender
and publisher keep their zero (nil) values. -/
def NewSubscriber : SubscriberCore :=
  { track := none, sender := none, publisher := none }

/-- A Publisher as seen by subscription bookkeeping: its relay track and
its live subscriber set. -/
structure PublisherState where
  track : TrackInfo
  subscribers : List SubscriberId
deriving DecidableEq, Repr

/-- Keyed insert: registering a subscriber already present in the keyed set
changes nothing. -/
def insertSubscriber (s : SubscriberId) (l : List SubscriberId) : List SubscriberId :=
  if s ∈ l then l else s :: l

/-- Modelled from the spec: Publisher.AddSubscriber is not among the given
source files; per the spec, Subscribe must "register the subscriber in the
publisher's live subscriber set" (a concurrency-safe keyed set). -/
def addSubscriberToPublisher (pid : PubId) (s : SubscriberId)
    (ps : List (PubId × PublisherState)) : List (PubId × PublisherState) :=
  ps.map fun p =>
    if p.1 = pid then (p.1, { p.2 with subscribers := insertSubscriber s p.2.subscribers })
    else p

/-- The live subscriber set of publisher pid. -/
def publisherSubs (ps : List (PubId × PublisherState)) (pid : PubId) :
    List SubscriberId :=
  match ps.find? fun p => p.1 = pid with
  | some p => p.2.subscribers
  | none => []

/-- Engine calls that Subscribe/Unsubscribe make on the subscriber's home
peer connection (AddTrack / RemoveTrack), with the possibly-nil argument. -/
inductive EngineCall
  | addTrack (track : Option TrackInfo)
  | removeTrack (sender : Option Sender)
deriving DecidableEq, Repr

/-- The state a subscription operation can observe and mutate: one
subscriber (its id and triple), the publishers' live subscriber sets, the
Call-level bookkeeping collection, and the home connection's state. -/
structure World where
  subId : SubscriberId
  sub : SubscriberCore
  publishers : List (PubId × PublisherState)
  callSubscribers : List SubscriberId
  connectionState : PeerConnectionState
deriving DecidableEq, Repr

/-- Subscriber.Subscribe(publisher); the publisher argument is passed as its
id and relay track. Mirrors the code exactly: a failed
NewTrackLocalStaticRTP or AddTrack is only logged — the code has no early
return — so the triple is set (with nil members where a step failed) and
the subscriber is registered in the publisher's live set unconditionally.
createOk injects whether track creation succeeds; addTrackResult injects
the sender AddTrack returns (none = the call errored and sender stays nil). -/
def Subscribe (w : World) (pid : PubId) (pubTrack : TrackInfo) (createOk : Bool)
    (addTrackResult : Option Sender) : World × List EngineCall :=
  let track := newTrackLocalStaticRTP createOk pubTrack.codec pubTrack.trackID
    pubTrack.streamID
  let sender := addTrackResult
  ({ w with
      sub := { track := track, sender := sender, publisher := some pid },
      publishers := addSubscriberToPublisher pid w.subId w.publishers },
   [EngineCall.addTrack track])

/-- Subscriber.Unsubscribe. Mirrors the code: if the home connection is not
in the Closed state, call RemoveTrack with the subscriber's current sender
(no nil check; a removal error is only logged, treated as benign), then
call s.call.RemoveSubscriber. The Call type is not among the given source
files; modelled from the spec, RemoveSubscriber removes the subscriber
from the Call-level keyed bookkeeping collection. Nothing touches the
subscriber's triple or any publisher's subscriber set. -/
def Unsubscribe (w : World) : World × List EngineCall :=
  let calls :=
    if w.connectionState ≠ PeerConnectionState.closed then
      [EngineCall.removeTrack w.sub.sender]
    else []
  ({ w with callSubscribers := w.callSubscribers.filter fun s => s ≠ w.subId },
   calls)

/-- A concrete codec capability used for concrete evaluations. -/
def cexCodec : RTPCodecCapability := { mimeType := "audio/opus", clockRate := 48000 }

/-- A concrete track used for concrete evaluations. -/
def cexTrack : TrackInfo :=
  { codec := cexCodec, trackID := "track-1", streamID := "stream-1" }

/-- A concrete world: one fresh subscriber (id 0), one publisher (id 0) with
an empty live set, the subscriber present in the Call bookkeeping, and a
Connected home connection. -/
def cexWorld : World :=
  { subId := 0,
    sub := NewSubscriber,
    publishers := [(0, { track := cexTrack, subscribers := [] })],
    callSubscribers := [0],
    connectionState := PeerConnectionState.connected }

/-- The concrete world after a fully successful Subscribe of subscriber 0 to
publisher 0. -/
def cexWorldSubscribed : World := (Subscribe cexWorld 0 cexTrack true (some 7)).1

/-- The forwarding loop either has not returned and sent nothing, or has
returned and sent exactly one PublishedTrackFailed for its relay track. -/
theorem forwardLoop_shape (lt : TrackInfo) (steps : List LoopStep) :
    forwardLoop lt steps = ([], false) ∨
    forwardLoop lt steps = ([Event.publishedTrackFailed lt], true) := by
  induction steps with
  | nil => exact Or.inl rfl
  | cons step rest ih =>
    obtain ⟨r, w⟩ := step
    cases r with
    | ok n =>
      cases w with
      | ok => exact ih
      | errClosedPipe => exact ih
      | writeErr => exact Or.inr rfl
    | eof => exact Or.inr rfl
    | readErr => exact Or.inr rfl

/-- C1: when the relay track is created successfully, onRtpTrackReceived
sends exactly one NewTrackPublished, as the very first event (before any
forwarding-loop event), and the forwarding loop sends PublishedTrackFailed
exactly once if it ended and never while it has not ended. -/
theorem onRtpTrackReceived_exactly_one_event_pair (remote : TrackInfo)
    (steps : List LoopStep) :
    (onRtpTrackReceived true remote steps).1.countP Event.isNewTrackPublished = 1 ∧
    (onRtpTrackReceived true remote steps).1.head? =
      some (Event.newTrackPublished
        { codec := remote.codec, trackID := remote.trackID,
          streamID := remote.streamID }) ∧
    (onRtpTrackReceived true remote steps).1.countP Event.isPublishedTrackFailed =
      (if (onRtpTrackReceived true remote steps).2 then 1 else 0) := by
  have h := forwardLoop_shape
    { codec := remote.codec, trackID := remote.trackID, streamID := remote.streamID }
    steps
  rcases h with h | h <;>
    simp [onRtpTrackReceived, newTrackLocalStaticRTP, h, List.countP_cons,
      Event.isNewTrackPublished, Event.isPublishedTrackFailed]

/-- C5: the forwarding loop survives any number of benign steps (successful
read, then a write that succeeds or fails with ErrClosedPipe) without
sending any event, and at the first non-benign step it returns having sent
exactly one PublishedTrackFailed, whatever outcomes would follow. -/
theorem forwardLoop_benign_vs_terminal (lt : TrackInfo) (pre : List LoopStep)
    (hpre : ∀ s ∈ pre, s.benign = true) :
    forwardLoop lt pre = ([], false) ∧
    ∀ bad rest, bad.benign = false →
      forwardLoop lt (pre ++ bad :: rest) =
        ([Event.publishedTrackFailed lt], true) := by
  revert hpre
  induction pre with
  | nil =>
    intro _
    refine ⟨rfl, fun bad rest hbad => ?_⟩
    obtain ⟨r, w⟩ := bad
    cases r with
    | ok n =>
      cases w with
      | ok => simp [LoopStep.benign] at hbad
      | errClosedPipe => simp [LoopStep.benign] at hbad
      | writeErr => rfl
    | eof => rfl
    | readErr => rfl
  | cons s pre ih =>
    intro hpre
    have hs : s.benign = true := hpre s (by simp)
    have hrest : ∀ x ∈ pre, x.benign = true := fun x hx => hpre x (by simp [hx])
    obtain ⟨ih1, ih2⟩ := ih hrest
    obtain ⟨r, w⟩ := s
    cases r with
    | ok n =>
      cases w with
      | ok => exact ⟨ih1, fun bad rest hbad => ih2 bad rest hbad⟩
      | errClosedPipe => exact ⟨ih1, fun bad rest hbad => ih2 bad rest hbad⟩
      | writeErr => simp [LoopStep.benign] at hs
    | eof => simp [LoopStep.benign] at hs
    | readErr => simp [LoopStep.benign] at hs

/-- C5 witness: two benign steps (one ErrClosedPipe drop, one successful
write) leave the loop running with no event; appending an end-of-stream
read then terminates it with exactly one PublishedTrackFailed, regardless
of the steps behind it. -/
theorem forwardLoop_benign_vs_terminal_witness :
    forwardLoop cexTrack
      [{ read := ReadResult.ok 10, write := WriteResult.errClosedPipe },
       { read := ReadResult.ok 4, write := WriteResult.ok }] = ([], false) ∧
    forwardLoop cexTrack
      ([{ read := ReadResult.ok 10, write := WriteResult.errClosedPipe },
        { read := ReadResult.ok 4, write := WriteResult.ok }] ++
        ({ read := ReadResult.eof, write := WriteResult.ok } ::
          [{ read := ReadResult.ok 1, write := WriteResult.ok }])) =
      ([Event.publishedTrackFailed cexTrack], true) :=
  ⟨(forwardLoop_benign_vs_terminal cexTrack _ (by decide)).1,
   (forwardLoop_benign_vs_terminal cexTrack _ (by decide)).2 _ _ (by decide)⟩

/-- C6: onNegotiationNeeded sends RenegotiationRequired carrying the created
offer when both CreateOffer and SetLocalDescription succeed, and sends
nothing when CreateOffer fails or when SetLocalDescription fails. -/
theorem onNegotiationNeeded_spec (c : Option SessionDescription)
    (ok : SessionDescription → Bool) :
    (∀ offer, c = some offer → ok offer = true →
      onNegotiationNeeded c ok = [Event.renegotiationRequired offer]) ∧
    (c = none → onNegotiationNeeded c ok = []) ∧
    (∀ offer, c = some offer → ok offer = false →
      onNegotiationNeeded c ok = []) := by
  refine ⟨?_, ?_, ?_⟩
  · intro offer hc hok
    subst hc
    simp [onNegotiationNeeded, hok]
  · intro hc
    subst hc
    rfl
  · intro offer hc hok
    subst hc
    simp [onNegotiationNeeded, hok]

/-- C6 witness: the three cases of onNegotiationNeeded_spec evaluated at a
concrete offer. -/
theorem onNegotiationNeeded_spec_witness :
    onNegotiationNeeded (some { sdp := "offer-sdp" }) (fun _ => true) =
      [Event.renegotiationRequired { sdp := "offer-sdp" }] ∧
    onNegotiationNeeded (some { sdp := "offer-sdp" }) (fun _ => false) = [] ∧
    onNegotiationNeeded none (fun _ : SessionDescription => true) = [] :=
  ⟨(onNegotiationNeeded_spec _ _).1 _ rfl rfl,
   (onNegotiationNeeded_spec _ _).2.2 _ rfl rfl,
   (onNegotiationNeeded_spec _ _).2.1 rfl⟩

/-- C7: onConnectionStateChanged sends LeftTheCall with the single fixed
reason for each of Failed, Disconnected and Closed, JoinedTheCall for
Connected, and nothing for every other connection state. -/
theorem onConnectionStateChanged_spec :
    onConnectionStateChanged PeerConnectionState.failed =
      [Event.leftTheCall CallHangupReason.userHangup] ∧
    onConnectionStateChanged PeerConnectionState.disconnected =
      [Event.leftTheCall CallHangupReason.userHangup] ∧
    onConnectionStateChanged PeerConnectionState.closed =
      [Event.leftTheCall CallHangupReason.userHangup] ∧
    onConnectionStateChanged PeerConnectionState.connected =
      [Event.joinedTheCall] ∧
    onConnectionStateChanged PeerConnectionState.unknown = [] ∧
    onConnectionStateChanged PeerConnectionState.new = [] ∧
    onConnectionStateChanged PeerConnectionState.connecting = [] := by
  decide

/-- Once a channel is bound, every further notification only closes the new
channel and leaves the bound channel unchanged. -/
theorem processDataChannels_bound (e : DataChannel) (l : List DataChannel) :
    processDataChannels (some e) l = (some e, l.map DCAction.closeChannel) := by
  induction l with
  | nil => rfl
  | cons d t ih => simp [processDataChannels, onDataChannelReady, ih]

/-- C8: across any sequence of "channel ready" notifications to a Peer with
no channel bound yet, the first channel is bound, its four handlers are
registered, and every subsequent channel is closed immediately with no
handler registered on it and no change to the bound channel. -/
theorem dataChannel_single_bind (dc : DataChannel) (rest : List DataChannel) :
    (processDataChannels none (dc :: rest)).1 = some dc ∧
    (processDataChannels none (dc :: rest)).2 =
      DCAction.registerOnOpen dc :: DCAction.registerOnMessage dc ::
        DCAction.registerOnError dc :: DCAction.registerOnClose dc ::
        rest.map DCAction.closeChannel := by
  simp [processDataChannels, onDataChannelReady, processDataChannels_bound]

/-- C9: the relay track published by onRtpTrackReceived carries the remote
track's codec capability, track ID and stream ID, and the local track that
a successful Subscribe stores carries the publisher relay track's codec
capability, track ID and stream ID. -/
theorem derived_track_identity (remote pubTrack : TrackInfo)
    (steps : List LoopStep) (w : World) (pid : PubId) (sres : Option Sender)
    (lt t : TrackInfo)
    (h1 : Event.newTrackPublished lt ∈ (onRtpTrackReceived true remote steps).1)
    (h2 : (Subscribe w pid pubTrack true sres).1.sub.track = some t) :
    (lt.codec = remote.codec ∧ lt.trackID = remote.trackID ∧
      lt.streamID = remote.streamID) ∧
    (t.codec = pubTrack.codec ∧ t.trackID = pubTrack.trackID ∧
      t.streamID = pubTrack.streamID) := by
  constructor
  · rcases forwardLoop_shape
        { codec := remote.codec, trackID := remote.trackID,
          streamID := remote.streamID } steps with h | h <;>
      · simp [onRtpTrackReceived, newTrackLocalStaticRTP, h] at h1
        subst h1
        exact ⟨rfl, rfl, rfl⟩
  · have hx : (Subscribe w pid pubTrack true sres).1.sub.track =
        some (TrackInfo.mk pubTrack.codec pubTrack.trackID pubTrack.streamID) := rfl
    rw [hx] at h2
    injection h2 with h2
    subst h2
    exact ⟨rfl, rfl, rfl⟩

/-- C9 witness: derived_track_identity applied to the concrete track,
concrete world, an empty loop trace and a successful AddTrack. -/
theorem derived_track_identity_witness :
    (cexTrack.codec = cexTrack.codec ∧ cexTrack.trackID = cexTrack.trackID ∧
      cexTrack.streamID = cexTrack.streamID) ∧
    (cexTrack.codec = cexTrack.codec ∧ cexTrack.trackID = cexTrack.trackID ∧
      cexTrack.streamID = cexTrack.streamID) :=
  derived_track_identity cexTrack cexTrack [] cexWorld 0 (some 1) cexTrack cexTrack
    (by decide) rfl

/-- C2 (against the claim): when NewTrackLocalStaticRTP fails, Subscribe
still sets the subscriber's triple (nil track, nil sender, the publisher)
and still registers the subscriber in the publisher's live set, because
the code only logs the error and has no early return. -/
theorem Subscribe_attaches_despite_create_failure :
    (Subscribe cexWorld 0 cexTrack false none).1.sub =
      { track := none, sender := none, publisher := some 0 } ∧
    0 ∈ publisherSubs (Subscribe cexWorld 0 cexTrack false none).1.publishers 0 := by
  decide

/-- C3 counterexample: after a successful Subscribe of subscriber 0 to
publisher 0, Unsubscribe leaves subscriber 0 in publisher 0's live
subscriber set and leaves the subscriber's publisher reference set,
refuting the claim at this concrete input. -/
theorem Unsubscribe_keeps_publisher_registration_cex :
    0 ∈ publisherSubs (Unsubscribe cexWorldSubscribed).1.publishers 0 ∧
    (Unsubscribe cexWorldSubscribed).1.sub.publisher = some 0 := by
  decide

/-- C3 amended: Unsubscribe removes the subscriber only from the Call-level
bookkeeping collection; every publisher's live subscriber set, the
subscriber's (track, sender, publisher) triple, and the connection state
are left unchanged. -/
theorem Unsubscribe_call_level_only (w : World) :
    (Unsubscribe w).1.publishers = w.publishers ∧
    (Unsubscribe w).1.sub = w.sub ∧
    (Unsubscribe w).1.connectionState = w.connectionState ∧
    (Unsubscribe w).1.callSubscribers =
      (w.callSubscribers.filter fun s => s ≠ w.subId) :=
  ⟨rfl, rfl, rfl, rfl⟩

/-- Filtering a list twice with the same predicate equals filtering once. -/
theorem filter_idem {α : Type} (p : α → Bool) (l : List α) :
    (l.filter p).filter p = l.filter p := by
  induction l with
  | nil => rfl
  | cons a t ih =>
    cases h : p a with
    | true => simp [List.filter_cons, h, ih]
    | false => simp [List.filter_cons, h, ih]

/-- C4: Unsubscribe is idempotent: a second consecutive call returns the
same state (same triple, same publisher sets, same Call bookkeeping, same
connection state) and issues the same engine calls as the first. -/
theorem Unsubscribe_idempotent (w : World) :
    (Unsubscribe (Unsubscribe w).1).1 = (Unsubscribe w).1 ∧
    (Unsubscribe (Unsubscribe w).1).2 = (Unsubscribe w).2 := by
  refine ⟨?_, rfl⟩
  show World.mk w.subId w.sub w.publishers
      ((w.callSubscribers.filter fun s => s ≠ w.subId).filter fun s => s ≠ w.subId)
      w.connectionState =
    World.mk w.subId w.sub w.publishers
      (w.callSubscribers.filter fun s => s ≠ w.subId) w.connectionState
  exact congrArg
    (fun l => World.mk w.subId w.sub w.publishers l w.connectionState)
    (filter_idem _ _)

/-- C10: Unsubscribe on a subscriber still in its freshly constructed state
(nil sender), with the home connection not Closed, passes the nil sender
straight to RemoveTrack — the code performs no nil check. -/
theorem Unsubscribe_fresh_nil_sender (w : World)
    (hs : w.sub = NewSubscriber)
    (hc : w.connectionState ≠ PeerConnectionState.closed) :
    (Unsubscribe w).2 = [EngineCall.removeTrack none] := by
  have h1 : (Unsubscribe w).2 =
      if w.connectionState ≠ PeerConnectionState.closed then
        [EngineCall.removeTrack w.sub.sender]
      else [] := rfl
  rw [h1, if_pos hc, hs]
  rfl

/-- C10 witness: the concrete fresh world (Connected connection, subscriber
never subscribed) makes Unsubscribe call RemoveTrack with a nil sender. -/
theorem Unsubscribe_fresh_nil_sender_witness :
    (Unsubscribe cexWorld).2 = [EngineCall.removeTrack none] :=
  Unsubscribe_fresh_nil_sender cexWorld rfl (by decide)

end Waterfall
